import Mathlib

/-!
Verification of the RAG document-assistant core (ingestion pipeline,
vector-store wrapper, RAG orchestrator) against its source.

The Python source is shallowly embedded: pure functions become Lean
functions, instance state and injected collaborators become explicit
parameters, exceptions become `Except PyErr`, the persistent Chroma
collection becomes an explicit state value, and floating point distances
become rationals.  External library calls (langchain splitter, Chroma
similarity search, OpenAI clients, `unicodedata.normalize`) are passed in
as function parameters, mirroring how the classes receive their
collaborators by dependency injection.
-/

set_option maxRecDepth 4000

namespace RAGSpec

/-- Exceptions raised by external collaborators (OpenAI auth failures,
backend/transport failures, ValueError-style local failures).  Python
exception objects are modelled by their kind and message. -/
inductive PyErr where
  | authError : String → PyErr
  | backendError : String → PyErr
  | valueError : String → PyErr
deriving DecidableEq, Repr

/-- Embeds `str(e)` — the message carried by the exception. -/
def PyErr.msg : PyErr → String
  | PyErr.authError m => m
  | PyErr.backendError m => m
  | PyErr.valueError m => m

/-- Python `x or default` for an `Optional[int]` parameter: `None` and `0`
are falsy, every other integer is truthy. -/
def pyOrInt (x : Option Int) (d : Int) : Int :=
  match x with
  | none => d
  | some n => if n = 0 then d else n

/-- Python slice `l[:k]` for an `int` bound `k`: non-negative `k` keeps the
first `k` elements, negative `k` drops `-k` elements from the end
(clamped at zero). -/
def pyTake {α : Type} (k : Int) (l : List α) : List α :=
  if 0 ≤ k then l.take k.toNat else l.take ((l.length : Int) + k).toNat

/-- Python `str.isspace` alphabet as used by `\s` and `str.strip`:
ASCII space, tab, newline, carriage return, vertical tab, form feed,
the file/group/record/unit separators, next-line and no-break space. -/
def isPySpace (c : Char) : Bool :=
  c = (' ') || c = ('\t') || c = ('\n') || c = ('\r') ||
    c.toNat = 0x0b || c.toNat = 0x0c ||
    (0x1c ≤ c.toNat && c.toNat ≤ 0x1f) || c.toNat = 0x85 || c.toNat = 0xa0

/-- Python `str.strip()`: remove leading and trailing whitespace. -/
def pyStrip (s : String) : String :=
  String.mk (((s.data.dropWhile isPySpace).reverse.dropWhile isPySpace).reverse)

/-- Substring test (`needle in hay` in Python). -/
def strContains (hay needle : String) : Bool :=
  hay.data.tails.any (fun t => needle.data.isPrefixOf t)

namespace TextCleaner

/-- Configuration flags of `TextCleaner.__init__`
(src/app/utils/text_cleaner.py). -/
structure Cfg where
  remove_urls : Bool := true
  remove_emails : Bool := true
  normalize_whitespace : Bool := true
  remove_special_chars : Bool := false
  min_line_length : Int := 3
deriving DecidableEq, Repr

/-- The default constructor arguments of `TextCleaner()`. -/
def defaultCfg : Cfg := {}

/-- Python regex `\w` (word character) restricted to the Basic Latin,
Latin-1 and Latin Extended-A repertoire the corpus uses: ASCII
alphanumerics, underscore, and the accented letters U+00C0–U+017F
(excluding the two operators `×` U+00D7 and `÷` U+00F7, which are not
alphanumeric). -/
def isWordChar (c : Char) : Bool :=
  c.isAlpha || c.isDigit || c = ('_') ||
    (0xc0 ≤ c.toNat && c.toNat ≤ 0x17f && c.toNat ≠ 0xd7 && c.toNat ≠ 0xf7)

/-- Character class of the body of `URL_PATTERN`
`(?:[a-zA-Z]|[0-9]|[$-_@.&+]|[!*\\(\\),]|(?:%[0-9a-fA-F][0-9a-fA-F]))`:
letters, digits, the byte range `$`(0x24)–`_`(0x5f) (which already
contains `@ . & + %` and the hex digits), and `! * \ ( ) ,`. -/
def urlClassChar (c : Char) : Bool :=
  c.isAlpha || c.isDigit || (0x24 ≤ c.toNat && c.toNat ≤ 0x5f) ||
    c = ('!') || c = ('*') || c = ('\\') || c = ('(') || c = (')') || c = (',')

/-- If the text starts with the literal prefix `http://` or `https://`
(the `http[s]?://` part of `URL_PATTERN`), the length of that prefix. -/
def urlPrefixLen (l : List Char) : Option Nat :=
  if ("https://".data).isPrefixOf l then some 8
  else if ("http://".data).isPrefixOf l then some 7
  else none

/-- Length of the `URL_PATTERN` match starting exactly at the head of `l`,
if any: the scheme prefix followed by a maximal non-empty run of URL body
characters (the greedy `+`). -/
def urlMatchLen (l : List Char) : Option Nat :=
  match urlPrefixLen l with
  | none => none
  | some p =>
    let run := (l.drop p).takeWhile urlClassChar
    if run.isEmpty then none else some (p + run.length)

/-- Embeds `URL_PATTERN.sub(" ", ·)` on the character list: scan left to right,
replace each leftmost match by one space and resume after it.  The scan
consumes at least one character per step (a match span has positive
length, and `max · 1` exposes that), so running it with the list length
as structural fuel never exhausts the fuel. -/
def urlSubAux : Nat → List Char → List Char
  | 0, l => l
  | _ + 1, [] => []
  | fuel + 1, c :: rest =>
    match urlMatchLen (c :: rest) with
    | some m => (' ') :: urlSubAux fuel ((c :: rest).drop (max m 1))
    | none => c :: urlSubAux fuel rest

/-- Embeds `URL_PATTERN.sub(" ", text)` (TextCleaner, remove_urls step). -/
def urlSub (s : String) : String :=
  String.mk (urlSubAux s.data.length s.data)

/-- Character class `[\w\.-]` of `EMAIL_PATTERN`. -/
def isEmailChar (c : Char) : Bool :=
  isWordChar c || c = ('.') || c = ('-')

/-- Backtracking position for `EMAIL_PATTERN`'s domain part: inside the
maximal `[\w\.-]` run `r` after the `@`, the greedy `[\w\.-]+` gives
characters back until `\.` and then `\w` can match, i.e. the largest
index `j ≥ 1` with `r[j] = '.'` and a word character at `j+1`. -/
def emailDomSplit (r : List Char) : Option Nat :=
  (List.range r.length).foldl
    (fun acc j =>
      if 1 ≤ j ∧ r.getD j (' ') = ('.') ∧ isWordChar (r.getD (j + 1) (' ')) ∧
          j + 1 < r.length then
        some j
      else acc)
    none

/-- Length of the `EMAIL_PATTERN` (`[\w\.-]+@[\w\.-]+\.\w+`) match starting
exactly at the head of `l`, if any.  The local part `[\w\.-]+` cannot give
characters back usefully (no email character equals `@`), so it is the
maximal run; the domain part backtracks per `emailDomSplit`, and the final
`\w+` is the maximal word run after the dot. -/
def emailMatchLen (l : List Char) : Option Nat :=
  let a := l.takeWhile isEmailChar
  if a.isEmpty then none
  else
    match l.drop a.length with
    | [] => none
    | c :: t =>
      if c = ('@') then
        let r := t.takeWhile isEmailChar
        match emailDomSplit r with
        | some j =>
          let w := (r.drop (j + 1)).takeWhile isWordChar
          some (a.length + 1 + j + 1 + w.length)
        | none => none
      else none

/-- Embeds `EMAIL_PATTERN.sub("[EMAIL]", ·)` on the character list: leftmost
matches replaced by the placeholder, scanning resumes after each match;
the list length serves as structural fuel exactly as in `urlSubAux`. -/
def emailSubAux : Nat → List Char → List Char
  | 0, l => l
  | _ + 1, [] => []
  | fuel + 1, c :: rest =>
    match emailMatchLen (c :: rest) with
    | some m => ("[EMAIL]".data) ++ emailSubAux fuel ((c :: rest).drop (max m 1))
    | none => c :: emailSubAux fuel rest

/-- Embeds `EMAIL_PATTERN.sub("[EMAIL]", text)` (TextCleaner, remove_emails
step). -/
def emailSub (s : String) : String :=
  String.mk (emailSubAux s.data.length s.data)

/-- Complement of `SPECIAL_CHARS = [^\w\s\-.,;:!?()'\"À-ſ]`:
the characters that are kept. -/
def specialAllowed (c : Char) : Bool :=
  isWordChar c || isPySpace c || c = ('-') || c = ('.') || c = (',') ||
    c = (';') || c = (':') || c = ('!') || c = ('?') || c = ('(') ||
    c = (')') || c = ('\x27') || c = ('"') ||
    (0xc0 ≤ c.toNat && c.toNat ≤ 0x17f)

/-- Embeds `SPECIAL_CHARS.sub(" ", text)`: each disallowed character becomes one
space (the class has no quantifier, so the substitution is per
character). -/
def specialSub (s : String) : String :=
  String.mk (s.data.map (fun c => if specialAllowed c then c else (' ')))

/-- Embeds `MULTIPLE_SPACES.sub(" ", ·)` = `re.sub(r"\s+", " ", ·)`: every maximal
run of whitespace characters becomes a single space.  The flag records
whether the previous character was inside a whitespace run. -/
def collapseSpacesAux : Bool → List Char → List Char
  | _, [] => []
  | inRun, c :: rest =>
    if isPySpace c then
      if inRun then collapseSpacesAux true rest
      else (' ') :: collapseSpacesAux true rest
    else c :: collapseSpacesAux false rest

/-- Embeds `MULTIPLE_NEWLINES.sub("\n\n", ·)` = `re.sub(r"\n{3,}", "\n\n", ·)`:
a run of `k ≥ 3` newlines becomes exactly two, shorter runs are kept;
both cases are `min k 2` newlines.  The accumulator counts the pending
newline run. -/
def collapseNewlinesAux : Nat → List Char → List Char
  | k, [] => List.replicate (min k 2) ('\n')
  | k, c :: rest =>
    if c = ('\n') then collapseNewlinesAux (k + 1) rest
    else List.replicate (min k 2) ('\n') ++ (c :: collapseNewlinesAux 0 rest)

/-- Embeds `TextCleaner._normalize_whitespace`: first the `\s+ → " "`
substitution, then the `\n{3,} → "\n\n"` substitution, in that source
order. -/
def normalize_whitespace (text : String) : String :=
  String.mk (collapseNewlinesAux 0 (collapseSpacesAux false text.data))

/-- Python `text.split(sep)` for a one-character separator, on the
character list; `"".split` yields `[""]` and a trailing separator yields a
trailing empty piece, as in Python. -/
def splitOnChar (sep : Char) : List Char → List (List Char)
  | [] => [[]]
  | c :: rest =>
    let r := splitOnChar sep rest
    if c = sep then [] :: r
    else
      match r with
      | [] => [[c]]
      | h :: t => (c :: h) :: t

/-- Python `sep.join(pieces)`. -/
def joinWith (sep : String) : List String → String
  | [] => ""
  | [s] => s
  | s :: rest => s ++ sep ++ joinWith sep rest

/-- Embeds `TextCleaner._filter_short_lines`: split on `"\n"`, keep a line when
its stripped length reaches `min_line_length` or the line is blank, and
join the kept lines back with `"\n"`. -/
def filter_short_lines (min_line_length : Int) (text : String) : String :=
  let lines := (splitOnChar ('\n') text.data).map String.mk
  joinWith ("\n")
    (lines.filter (fun line =>
      (min_line_length ≤ ((pyStrip line).length : Int)) || (pyStrip line).isEmpty))

/-- Embeds `TextCleaner.clean`.  `nfc` stands for the external
`unicodedata.normalize("NFC", ·)` (the identity on ASCII text);
`text = none` models a `None` argument. -/
def clean (cfg : Cfg) (nfc : String → String) (text : Option String) : String :=
  match text with
  | none => ""
  | some t =>
    if t.isEmpty then ""
    else
      let cleaned := nfc t
      let cleaned := if cfg.remove_urls then urlSub cleaned else cleaned
      let cleaned := if cfg.remove_emails then emailSub cleaned else cleaned
      let cleaned := if cfg.remove_special_chars then specialSub cleaned else cleaned
      let cleaned := if cfg.normalize_whitespace then normalize_whitespace cleaned else cleaned
      let cleaned :=
        if 0 < cfg.min_line_length then filter_short_lines cfg.min_line_length cleaned
        else cleaned
      pyStrip cleaned

end TextCleaner

/-- Metadata of a langchain `Document` as this code base uses it.  The
code only ever reads and writes the keys `source`, `source_id`,
`chunk_index` and `total_chunks`; a key that was never written is
`none`. -/
structure Metadata where
  source : Option String := none
  source_id : Option String := none
  chunk_index : Option Int := none
  total_chunks : Option Int := none
deriving DecidableEq, Repr

/-- A langchain `Document`: page content plus metadata. -/
structure Document where
  page_content : String
  metadata : Metadata := {}
deriving DecidableEq, Repr

/-- Embeds `ProcessingResult` dataclass
(src/app/services/document_processor.py). -/
structure ProcessingResult where
  success : Bool
  source_id : String
  chunks_count : Nat
  message : String
deriving DecidableEq, Repr

namespace VectorStoreManager

/-- One embedded record of the Chroma collection: the opaque identifier
Chroma assigned at insertion plus the stored document. -/
structure Record where
  id : String
  document : Document
deriving DecidableEq, Repr

/-- The persistent Chroma collection (`vectorstore._collection`),
modelled by its list of records. -/
structure Collection where
  records : List Record
deriving DecidableEq, Repr

/-- Embeds `collection.delete(ids=...)`: remove every record whose identifier is
listed. -/
def Collection.deleteIds (c : Collection) (ids : List String) : Collection :=
  { records := c.records.filter (fun r => decide (r.id ∉ ids)) }

/-- Embeds `VectorStoreManager.get_document_count`:
`self.vectorstore._collection.count()` on the live collection. -/
def get_document_count (c : Collection) : Nat :=
  c.records.length

/-- Embeds `VectorStoreManager.clear`: fetch all record ids, delete them when the
id list is non-empty (Python truthiness of `results["ids"]`), and return
`True`. -/
def clear (c : Collection) : Bool × Collection :=
  let ids := c.records.map Record.id
  (true, if ids.isEmpty then c else c.deleteIds ids)

/-- Embeds `VectorStoreManager.delete_by_source`: fetch the ids of the records
whose metadata `source_id` equals the argument; if any, delete them and
return `True`, otherwise return `False`. -/
def delete_by_source (c : Collection) (source_id : String) : Bool × Collection :=
  let ids := (c.records.filter
      (fun r => decide (r.document.metadata.source_id = some source_id))).map Record.id
  if ids.isEmpty then (false, c) else (true, c.deleteIds ids)

/-- Metadata stamping loop of `VectorStoreManager.add_documents`: when a
truthy `source_id` is supplied (`if source_id:`), write it into every
document's metadata. -/
def stampSource (documents : List Document) (source_id : Option String) : List Document :=
  match source_id with
  | none => documents
  | some sid =>
    if sid.isEmpty then documents
    else documents.map (fun d => { d with metadata := { d.metadata with source_id := some sid } })

/-- Embeds `VectorStoreManager.search`: default the result count with
`k = k or self.settings.retriever_k`, then delegate to Chroma
`similarity_search(query, k, filter)` (passed in as a parameter).  The
`try` block logs and re-raises, so errors pass through unchanged. -/
def search (retriever_k : Int)
    (similarity_search : String → Int → Option (List (String × String)) → Except PyErr (List Document))
    (query : String) (k : Option Int) (filter_dict : Option (List (String × String))) :
    Except PyErr (List Document) :=
  similarity_search query (pyOrInt k retriever_k) filter_dict

/-- Embeds `VectorStoreManager.search_with_scores`: default the result count with
`k = k or self.settings.retriever_k`, then delegate to Chroma
`similarity_search_with_score(query, k)`.  The `try` block logs and
re-raises, so errors pass through unchanged. -/
def search_with_scores (retriever_k : Int)
    (similarity_search_with_score : String → Int → Except PyErr (List (Document × ℚ)))
    (query : String) (k : Option Int) : Except PyErr (List (Document × ℚ)) :=
  similarity_search_with_score query (pyOrInt k retriever_k)

end VectorStoreManager

namespace EmbeddingsManager

/-- Embeds `EmbeddingsManager.embed_text`: call `self.embeddings.embed_query`
(the lazily constructed OpenAI client, passed in as a parameter); the
`try` block logs and re-raises, so auth and backend errors pass through
unchanged. -/
def embed_text (embed_query : String → Except PyErr (List ℚ)) (text : String) :
    Except PyErr (List ℚ) :=
  embed_query text

end EmbeddingsManager

namespace LLMClient

/-- Yield loop of `LLMClient.stream`: for each chunk produced by the
backend `self.client.stream(messages)`, forward `chunk.content` only when
it is truthy (a non-empty string). -/
def stream (chunks : List String) : List String :=
  match chunks with
  | [] => []
  | c :: rest => if c.isEmpty then stream rest else c :: stream rest

end LLMClient

/-- Embeds `NO_CONTEXT_MESSAGE` from src/app/config.py. -/
def NO_CONTEXT_MESSAGE : String :=
  "Je n\x27ai pas trouvé d\x27information pertinente dans la base documentaire\npour répondre à cette question. Veuillez reformuler votre question ou vérifier que les documents\nnécessaires ont été indexés."

/-- Embeds `SYSTEM_PROMPT.format(context=..., question=...)` from
src/app/config.py: the fixed French instruction template with the two
placeholders substituted. -/
def SYSTEM_PROMPT_format (context question : String) : String :=
  "Tu es un assistant juridique expert travaillant pour le cabinet Parenti & Associés,\nspécialisé en droit des affaires. Tu réponds uniquement en te basant sur les documents fournis dans le contexte.\n\nDirectives:\n1. Base tes réponses EXCLUSIVEMENT sur les documents fournis\n2. Si l\x27information n\x27est pas dans les documents, indique-le clairement\n3. Cite les sources pertinentes dans ta réponse\n4. Adopte un ton professionnel et précis\n5. Structure ta réponse de manière claire\n\nContexte documentaire:\n"
    ++ context
    ++ "\n\nQuestion du collaborateur: " ++ question ++ "\n\nRéponse:"

/-- Embeds `RAGResponse` dataclass (src/app/core/rag.py). -/
structure RAGResponse where
  answer : String
  sources : List Document
  has_context : Bool
deriving DecidableEq, Repr

namespace RAGChain

/-- Embeds `RAGChain.MIN_RELEVANCE_SCORE = 0.3`, as a rational. -/
def MIN_RELEVANCE_SCORE : ℚ := 3 / 10

/-- Embeds `RAGChain._build_context`: wrap each document with a 1-based header
naming its position and `source_id` (defaulting to "Document inconnu"),
and join the parts with a visible delimiter line. -/
def build_context (documents : List Document) : String :=
  String.intercalate ("\n---\n")
    ((documents.enumFrom 1).map (fun p =>
      "[Document " ++ toString p.1 ++ " - Source: "
        ++ (p.2.metadata.source_id.getD ("Document inconnu")) ++ "]\n"
        ++ p.2.page_content ++ "\n"))

/-- Embeds `RAGChain.query`.  `retriever_k` is the injected
`settings.retriever_k`; `search_with_scores` is the injected
`self.vectorstore.search_with_scores` (already a function of question and
the defaulted `k`); `invoke` is the injected `self.llm.invoke`.  The
surrounding `try` block logs and re-raises, so errors pass through
unchanged. -/
def query (retriever_k : Int)
    (search_with_scores : String → Int → Except PyErr (List (Document × ℚ)))
    (invoke : String → Except PyErr String)
    (question : String) (k : Option Int) : Except PyErr RAGResponse :=
  let keff := pyOrInt k retriever_k
  match search_with_scores question keff with
  | Except.error e => Except.error e
  | Except.ok results_with_scores =>
    let relevant_docs := results_with_scores.filterMap
      (fun p => if p.2 ≤ MIN_RELEVANCE_SCORE then some p.1 else none)
    let relevant_docs :=
      if relevant_docs.isEmpty && !results_with_scores.isEmpty then
        (pyTake keff results_with_scores).map Prod.fst
      else relevant_docs
    if relevant_docs.isEmpty then
      Except.ok { answer := NO_CONTEXT_MESSAGE, sources := [], has_context := false }
    else
      let context := build_context relevant_docs
      let prompt := SYSTEM_PROMPT_format context question
      match invoke prompt with
      | Except.error e => Except.error e
      | Except.ok answer =>
        Except.ok { answer := answer, sources := relevant_docs, has_context := true }

/-- Embeds `RAGChain.query_stream`: same retrieval and filtering as `query`; the
generator yields the refusal message alone when there is no context, and
otherwise yields every fragment of `self.llm.stream(prompt)` while
accumulating them into the final answer.  The result is the pair (list of
yielded fragments, returned `RAGResponse`). -/
def query_stream (retriever_k : Int)
    (search_with_scores : String → Int → Except PyErr (List (Document × ℚ)))
    (llm_stream : String → Except PyErr (List String))
    (question : String) (k : Option Int) : Except PyErr (List String × RAGResponse) :=
  let keff := pyOrInt k retriever_k
  match search_with_scores question keff with
  | Except.error e => Except.error e
  | Except.ok results_with_scores =>
    let relevant_docs := results_with_scores.filterMap
      (fun p => if p.2 ≤ MIN_RELEVANCE_SCORE then some p.1 else none)
    let relevant_docs :=
      if relevant_docs.isEmpty && !results_with_scores.isEmpty then
        (pyTake keff results_with_scores).map Prod.fst
      else relevant_docs
    if relevant_docs.isEmpty then
      Except.ok ([NO_CONTEXT_MESSAGE],
        { answer := NO_CONTEXT_MESSAGE, sources := [], has_context := false })
    else
      let context := build_context relevant_docs
      let prompt := SYSTEM_PROMPT_format context question
      match llm_stream prompt with
      | Except.error e => Except.error e
      | Except.ok tokens =>
        Except.ok (tokens,
          { answer := String.join tokens, sources := relevant_docs, has_context := true })

end RAGChain

namespace DocumentProcessor

/-- The `TextCleaner` configuration built in `DocumentProcessor.__init__`:
`remove_urls=True, remove_emails=True, normalize_whitespace=True,
min_line_length=3` (and the default `remove_special_chars=False`). -/
def cleanerCfg : TextCleaner.Cfg :=
  { remove_urls := true, remove_emails := true,
    normalize_whitespace := true, min_line_length := 3 }

/-- Embeds `DocumentProcessor._split_text`: run the (external, injected)
recursive character splitter, then wrap each chunk as a `Document`
carrying `source`, 0-based `chunk_index` and `total_chunks` metadata. -/
def split_text (splitter : String → List String) (text : String) (source_name : String) :
    List Document :=
  let chunks := splitter text
  chunks.enum.map (fun p =>
    { page_content := p.2,
      metadata := { source := some source_name,
                    chunk_index := some (p.1 : Int),
                    total_chunks := some ((chunks.length : Int)) } })

/-- Embeds `DocumentProcessor.process_file`.  `clean` is `self.cleaner.clean`,
`splitter` is the external `self.text_splitter.split_text`, `extract` is
the outcome of `self._extract_text(file_info)`, `chroma_add` is the
external Chroma insertion behind `self.vectorstore.add_documents`, `name`
is `file_info.name`, and `store` is the current vector-store content.
The trailing `except Exception` catches every error raised inside the
body — including extraction, embedding and store errors — and converts it
into a failure `ProcessingResult`; nothing escapes this boundary. -/
def process_file (clean : String → String) (splitter : String → List String)
    (extract : Except PyErr String)
    (chroma_add : List Document → Except PyErr (List String))
    (name : String) (store : List Document) : ProcessingResult × List Document :=
  match extract with
  | Except.error e =>
    ({ success := false, source_id := name, chunks_count := 0,
       message := "Erreur lors du traitement: " ++ e.msg }, store)
  | Except.ok raw_text =>
    if raw_text.isEmpty || (pyStrip raw_text).isEmpty then
      ({ success := false, source_id := name, chunks_count := 0,
         message := "Le fichier est vide ou ne contient pas de texte exploitable" }, store)
    else
      let cleaned_text := clean raw_text
      if cleaned_text.length < 50 then
        ({ success := false, source_id := name, chunks_count := 0,
           message := "Le contenu nettoyé est trop court pour être exploitable" }, store)
      else
        let chunks := split_text splitter cleaned_text name
        if chunks.isEmpty then
          ({ success := false, source_id := name, chunks_count := 0,
             message := "Impossible de découper le document en chunks" }, store)
        else
          let stamped := VectorStoreManager.stampSource chunks (some name)
          match chroma_add stamped with
          | Except.error e =>
            ({ success := false, source_id := name, chunks_count := 0,
               message := "Erreur lors du traitement: " ++ e.msg }, store)
          | Except.ok _ids =>
            ({ success := true, source_id := name, chunks_count := chunks.length,
               message := "Document indexé avec succès (" ++ toString chunks.length
                 ++ " segments)" }, store ++ stamped)

end DocumentProcessor

/-- The selection policy in the specification's words: keep every
retrieved result whose distance is at or below the relevance threshold;
when none passes, fall back to the first `k` raw results.  Stated
separately from `RAGChain.query` so the code can be compared against
it. -/
def specSelected (k : Int) (rws : List (Document × ℚ)) : List Document :=
  let passed := (rws.filter
      (fun p => decide (p.2 ≤ RAGChain.MIN_RELEVANCE_SCORE))).map Prod.fst
  if passed.isEmpty then (pyTake k rws).map Prod.fst else passed

section Lemmas

/-- A guarded list comprehension is filtering followed by projection. -/
lemma filterMap_ite_eq_filter_map {α β : Type} (f : α → β) (p : α → Prop) [DecidablePred p]
    (l : List α) :
    l.filterMap (fun a => if p a then some (f a) else none) =
      (l.filter (fun a => decide (p a))).map f := by
  induction l with
  | nil => rfl
  | cons a l ih => by_cases h : p a <;> simp [h, ih]

/-- A positive Python slice bound of a non-empty list is non-empty. -/
lemma pyTake_ne_nil {α : Type} (k : Int) (l : List α) (hk : 0 < k) (hl : l ≠ []) :
    pyTake k l ≠ [] := by
  unfold pyTake
  rw [if_pos (le_of_lt hk)]
  rcases l with _ | ⟨a, t⟩
  · exact absurd rfl hl
  · have h1 : k.toNat ≠ 0 := by omega
    rcases hn : k.toNat with _ | n
    · exact absurd hn h1
    · simp [List.take_cons]

/-- Deleting every id of a record list empties it. -/
lemma filter_not_mem_map_id_eq_nil (rs : List VectorStoreManager.Record) :
    rs.filter (fun r => decide (r.id ∉ rs.map VectorStoreManager.Record.id)) = [] := by
  rw [List.filter_eq_nil_iff]
  intro r hr
  simp only [decide_eq_true_eq, Decidable.not_not]
  exact List.mem_map_of_mem VectorStoreManager.Record.id hr

/-- A cleared collection holds no records. -/
lemma clear_records_eq_nil (c : VectorStoreManager.Collection) :
    ((VectorStoreManager.clear c).2).records = [] := by
  rcases c with ⟨rs⟩
  rcases rs with _ | ⟨r, rs'⟩
  · simp [VectorStoreManager.clear]
  · simp only [VectorStoreManager.clear, VectorStoreManager.Collection.deleteIds]
    simpa using filter_not_mem_map_id_eq_nil (r :: rs')

end Lemmas

/-- C10: every fragment yielded by `LLMClient.stream` is a non-empty
string, and the number of yielded fragments is the number of backend
chunks minus the number of empty-content chunks — empty chunks are
silently dropped, never forwarded. -/
theorem stream_skips_empty_chunks :
    ∀ chunks : List String,
      (LLMClient.stream chunks).all (fun s => !s.isEmpty) = true ∧
      (LLMClient.stream chunks).length + chunks.countP (fun s => s.isEmpty) =
        chunks.length := by
  intro chunks
  induction chunks with
  | nil => simp [LLMClient.stream]
  | cons c rest ih =>
    by_cases h : c.isEmpty = true
    · simp [LLMClient.stream, h, List.countP_cons, ih.1, ih.2]
      omega
    · simp [LLMClient.stream, h, List.countP_cons, ih.1]
      omega

/-- C7: `clear` returns `true` and leaves a zero document count, and doing
it a second time — in particular on the now-empty collection — again
returns `true` with a zero count; this covers a collection that was
already empty beforehand since the statement holds for every starting
collection. -/
theorem clear_twice_idempotent :
    ∀ c : VectorStoreManager.Collection,
      (VectorStoreManager.clear c).1 = true ∧
      VectorStoreManager.get_document_count (VectorStoreManager.clear c).2 = 0 ∧
      (VectorStoreManager.clear (VectorStoreManager.clear c).2).1 = true ∧
      VectorStoreManager.get_document_count
        (VectorStoreManager.clear (VectorStoreManager.clear c).2).2 = 0 := by
  intro c
  refine ⟨rfl, ?_, rfl, ?_⟩
  · simp [VectorStoreManager.get_document_count, clear_records_eq_nil]
  · simp [VectorStoreManager.get_document_count, clear_records_eq_nil]

/-- C5: `_split_text` produces one document per chunk; every document
records `total_chunks` equal to the chunk-sequence length, and the
`chunk_index` values are exactly `0, 1, ..., total_chunks - 1` in order,
with no gaps or repeats. -/
theorem split_text_metadata_invariant :
    ∀ (splitter : String → List String) (text source_name : String),
      (DocumentProcessor.split_text splitter text source_name).length =
        (splitter text).length ∧
      (DocumentProcessor.split_text splitter text source_name).map
          (fun d => d.metadata.total_chunks) =
        List.replicate (splitter text).length (some (((splitter text).length : Int))) ∧
      (DocumentProcessor.split_text splitter text source_name).map
          (fun d => d.metadata.chunk_index) =
        (List.range (splitter text).length).map (fun i : Nat => some ((i : Int))) := by
  intro splitter text source_name
  refine ⟨?_, ?_, ?_⟩
  · simp [DocumentProcessor.split_text]
  · apply List.ext_getElem
    · simp [DocumentProcessor.split_text]
    · intro i h1 h2
      simp [DocumentProcessor.split_text, List.getElem_enum]
  · apply List.ext_getElem
    · simp [DocumentProcessor.split_text]
    · intro i h1 h2
      simp [DocumentProcessor.split_text, List.getElem_enum]

/-- Passing `k = 0` hits the falsy branch of `k or default`, exactly like
passing `None`. -/
lemma pyOrInt_zero (d : Int) : pyOrInt (some 0) d = pyOrInt none d := by
  simp [pyOrInt]

/-- C9: an explicit `k = 0` is treated identically to omitting `k` (the
configured `retriever_k` default is used, rather than returning zero
results) in `RAGChain.query`, `RAGChain.query_stream`,
`VectorStoreManager.search` and `VectorStoreManager.search_with_scores`. -/
theorem zero_k_uses_default :
    (∀ rk sws invoke q,
      RAGChain.query rk sws invoke q (some 0) = RAGChain.query rk sws invoke q none) ∧
    (∀ rk sws ls q,
      RAGChain.query_stream rk sws ls q (some 0) =
        RAGChain.query_stream rk sws ls q none) ∧
    (∀ rk ss q fd,
      VectorStoreManager.search rk ss q (some 0) fd =
        VectorStoreManager.search rk ss q none fd) ∧
    (∀ rk ssws q,
      VectorStoreManager.search_with_scores rk ssws q (some 0) =
        VectorStoreManager.search_with_scores rk ssws q none) := by
  refine ⟨?_, ?_, ?_, ?_⟩
  · intro rk sws invoke q
    simp only [RAGChain.query, pyOrInt_zero]
  · intro rk sws ls q
    simp only [RAGChain.query_stream, pyOrInt_zero]
  · intro rk ss q fd
    simp only [VectorStoreManager.search, pyOrInt_zero]
  · intro rk ssws q
    simp only [VectorStoreManager.search_with_scores, pyOrInt_zero]

/-- C8: when no record carries the requested `source_id` — in particular
on an empty collection — `delete_by_source` returns `false` and leaves
the collection untouched (it does not raise: the embedding is total on
this path); when at least one record matches, it returns `true` and the
resulting collection holds no record with that `source_id`. -/
theorem delete_by_source_spec :
    ∀ (c : VectorStoreManager.Collection) (sid : String),
      ((∀ r ∈ c.records, r.document.metadata.source_id ≠ some sid) →
        VectorStoreManager.delete_by_source c sid = (false, c)) ∧
      ((∃ r ∈ c.records, r.document.metadata.source_id = some sid) →
        (VectorStoreManager.delete_by_source c sid).1 = true ∧
        ∀ r ∈ (VectorStoreManager.delete_by_source c sid).2.records,
          r.document.metadata.source_id ≠ some sid) := by
  intro c sid
  constructor
  · intro hnone
    have hfil : c.records.filter
        (fun r => decide (r.document.metadata.source_id = some sid)) = [] := by
      rw [List.filter_eq_nil_iff]
      intro r hr
      simpa using hnone r hr
    simp [VectorStoreManager.delete_by_source, hfil]
  · rintro ⟨r, hr, hsid⟩
    have hmemfil : r ∈ c.records.filter
        (fun r => decide (r.document.metadata.source_id = some sid)) := by
      rw [List.mem_filter]
      exact ⟨hr, by simpa using hsid⟩
    have hids : r.id ∈ (c.records.filter
        (fun r => decide (r.document.metadata.source_id = some sid))).map
          VectorStoreManager.Record.id :=
      List.mem_map_of_mem VectorStoreManager.Record.id hmemfil
    have hne : ((c.records.filter
        (fun r => decide (r.document.metadata.source_id = some sid))).map
          VectorStoreManager.Record.id).isEmpty = false := by
      rcases hl : (c.records.filter
          (fun r => decide (r.document.metadata.source_id = some sid))).map
            VectorStoreManager.Record.id with _ | ⟨x, xs⟩
      · rw [hl] at hids
        simp at hids
      · rw [hl]
        rfl
    constructor
    · simp [VectorStoreManager.delete_by_source, hne]
    · intro r' hr' hsid'
      rw [VectorStoreManager.delete_by_source] at hr'
      simp only [hne, Bool.false_eq_true, if_false] at hr'
      rw [VectorStoreManager.Collection.deleteIds] at hr'
      simp only [List.mem_filter, decide_eq_true_eq] at hr'
      rcases hr' with ⟨hr'mem, hr'nid⟩
      apply hr'nid
      apply List.mem_map_of_mem VectorStoreManager.Record.id
      rw [List.mem_filter]
      exact ⟨hr'mem, by simpa using hsid'⟩

/-- C8 witness: Scenario E — deleting `missing.txt` from the empty
collection returns `false` without an error; deleting an existing source
returns `true` and removes its records. -/
theorem delete_by_source_spec_witness :
    VectorStoreManager.delete_by_source { records := [] } ("missing.txt") =
      (false, { records := [] }) ∧
    ((VectorStoreManager.delete_by_source
        { records := [{ id := "id-1",
                        document := { page_content := "Bail commercial",
                                      metadata := { source_id := some ("bail.txt") } } }] }
        ("bail.txt")).1 = true ∧
      ∀ r ∈ (VectorStoreManager.delete_by_source
        { records := [{ id := "id-1",
                        document := { page_content := "Bail commercial",
                                      metadata := { source_id := some ("bail.txt") } } }] }
        ("bail.txt")).2.records,
        r.document.metadata.source_id ≠ some ("bail.txt")) :=
  ⟨(delete_by_source_spec { records := [] } ("missing.txt")).1 (by simp),
   (delete_by_source_spec
      { records := [{ id := "id-1",
                      document := { page_content := "Bail commercial",
                                    metadata := { source_id := some ("bail.txt") } } }] }
      ("bail.txt")).2
    ⟨{ id := "id-1",
       document := { page_content := "Bail commercial",
                     metadata := { source_id := some ("bail.txt") } } },
     by simp, rfl⟩⟩

/-- C1: whenever the raw retrieval result list is empty, `RAGChain.query`
returns exactly the fixed refusal message, an empty source list and
`has_context = false`, and this holds for every generation client —
including one that fails on any call — which is the pure-embedding
rendering of "the generation client's invoke is never called on that
path". -/
theorem query_refuses_without_context :
    ∀ (rk : Int) (sws : String → Int → Except PyErr (List (Document × ℚ)))
      (q : String) (k : Option Int),
      sws q (pyOrInt k rk) = Except.ok [] →
      ∀ invoke : String → Except PyErr String,
        RAGChain.query rk sws invoke q k =
          Except.ok { answer := NO_CONTEXT_MESSAGE, sources := [], has_context := false } := by
  intro rk sws q k h invoke
  simp [RAGChain.query, h]

/-- C1 witness: Scenario B — an empty corpus, a question, and a generation
client that would fail if invoked; the query still returns the refusal. -/
theorem query_refuses_without_context_witness :
    RAGChain.query 4 (fun _ _ => Except.ok [])
        (fun _ => Except.error (PyErr.authError ("clé API manquante")))
        ("anything") none =
      Except.ok { answer := NO_CONTEXT_MESSAGE, sources := [], has_context := false } :=
  query_refuses_without_context 4 (fun _ _ => Except.ok []) ("anything") none rfl
    (fun _ => Except.error (PyErr.authError ("clé API manquante")))

section QueryEval

/-- A non-empty list has a `false` `isEmpty` flag. -/
lemma isEmpty_false_of_ne_nil {α : Type} (l : List α) (h : l ≠ []) :
    l.isEmpty = false := by
  cases l with
  | nil => exact absurd rfl h
  | cons a t => rfl

/-- Evaluation of `RAGChain.query` when retrieval succeeds with a
non-empty result list and the effective `k` is positive: the query
invokes the generation client on the prompt built from the selected
documents and wraps its outcome, where the selected documents are
`specSelected` — the threshold filter with top-`k` fallback. -/
lemma query_eval_with_context
    (rk : Int) (sws : String → Int → Except PyErr (List (Document × ℚ)))
    (invoke : String → Except PyErr String) (q : String) (k : Option Int)
    (rws : List (Document × ℚ))
    (h : sws q (pyOrInt k rk) = Except.ok rws) (hne : rws ≠ [])
    (hk : 0 < pyOrInt k rk) :
    RAGChain.query rk sws invoke q k =
      (invoke (SYSTEM_PROMPT_format
          (RAGChain.build_context (specSelected (pyOrInt k rk) rws)) q)).map
        (fun a => { answer := a, sources := specSelected (pyOrInt k rk) rws,
                    has_context := true }) := by
  have hrws : rws.isEmpty = false := isEmpty_false_of_ne_nil rws hne
  simp only [RAGChain.query, h]
  rw [filterMap_ite_eq_filter_map Prod.fst
    (fun p => p.2 ≤ RAGChain.MIN_RELEVANCE_SCORE) rws]
  by_cases hpass : ((rws.filter
      (fun p => decide (p.2 ≤ RAGChain.MIN_RELEVANCE_SCORE))).map Prod.fst).isEmpty = true
  · have hfb : ((pyTake (pyOrInt k rk) rws).map Prod.fst).isEmpty = false := by
      apply isEmpty_false_of_ne_nil
      simp only [ne_eq, List.map_eq_nil_iff]
      exact pyTake_ne_nil (pyOrInt k rk) rws hk hne
    have hsel : specSelected (pyOrInt k rk) rws = (pyTake (pyOrInt k rk) rws).map Prod.fst := by
      simp [specSelected, hpass]
    simp only [hpass, hrws, Bool.not_false, Bool.and_true, if_true, hfb,
      Bool.false_eq_true, if_false]
    rw [← hsel]
    cases hinv : invoke (SYSTEM_PROMPT_format
        (RAGChain.build_context (specSelected (pyOrInt k rk) rws)) q) with
    | error e => rfl
    | ok a => rfl
  · rw [Bool.not_eq_true] at hpass
    have hsel : specSelected (pyOrInt k rk) rws =
        (rws.filter (fun p => decide (p.2 ≤ RAGChain.MIN_RELEVANCE_SCORE))).map Prod.fst := by
      simp [specSelected, hpass]
    simp only [hpass, Bool.false_and, Bool.false_eq_true, if_false]
    rw [← hsel]
    cases hinv : invoke (SYSTEM_PROMPT_format
        (RAGChain.build_context (specSelected (pyOrInt k rk) rws)) q) with
    | error e => rfl
    | ok a => rfl

/-- Evaluation of `RAGChain.query_stream` under the same hypotheses: the
generator streams the fragments produced for the same prompt, and the
final response joins them over the same selected sources. -/
lemma query_stream_eval_with_context
    (rk : Int) (sws : String → Int → Except PyErr (List (Document × ℚ)))
    (llm_stream : String → Except PyErr (List String)) (q : String) (k : Option Int)
    (rws : List (Document × ℚ))
    (h : sws q (pyOrInt k rk) = Except.ok rws) (hne : rws ≠ [])
    (hk : 0 < pyOrInt k rk) :
    RAGChain.query_stream rk sws llm_stream q k =
      (llm_stream (SYSTEM_PROMPT_format
          (RAGChain.build_context (specSelected (pyOrInt k rk) rws)) q)).map
        (fun toks => (toks,
          { answer := String.join toks, sources := specSelected (pyOrInt k rk) rws,
            has_context := true })) := by
  have hrws : rws.isEmpty = false := isEmpty_false_of_ne_nil rws hne
  simp only [RAGChain.query_stream, h]
  rw [filterMap_ite_eq_filter_map Prod.fst
    (fun p => p.2 ≤ RAGChain.MIN_RELEVANCE_SCORE) rws]
  by_cases hpass : ((rws.filter
      (fun p => decide (p.2 ≤ RAGChain.MIN_RELEVANCE_SCORE))).map Prod.fst).isEmpty = true
  · have hfb : ((pyTake (pyOrInt k rk) rws).map Prod.fst).isEmpty = false := by
      apply isEmpty_false_of_ne_nil
      simp only [ne_eq, List.map_eq_nil_iff]
      exact pyTake_ne_nil (pyOrInt k rk) rws hk hne
    have hsel : specSelected (pyOrInt k rk) rws = (pyTake (pyOrInt k rk) rws).map Prod.fst := by
      simp [specSelected, hpass]
    simp only [hpass, hrws, Bool.not_false, Bool.and_true, if_true, hfb,
      Bool.false_eq_true, if_false]
    rw [← hsel]
    cases hst : llm_stream (SYSTEM_PROMPT_format
        (RAGChain.build_context (specSelected (pyOrInt k rk) rws)) q) with
    | error e => rfl
    | ok toks => rfl
  · rw [Bool.not_eq_true] at hpass
    have hsel : specSelected (pyOrInt k rk) rws =
        (rws.filter (fun p => decide (p.2 ≤ RAGChain.MIN_RELEVANCE_SCORE))).map Prod.fst := by
      simp [specSelected, hpass]
    simp only [hpass, Bool.false_and, Bool.false_eq_true, if_false]
    rw [← hsel]
    cases hst : llm_stream (SYSTEM_PROMPT_format
        (RAGChain.build_context (specSelected (pyOrInt k rk) rws)) q) with
    | error e => rfl
    | ok toks => rfl

end QueryEval

/-- C2: on a non-empty raw result list (and a positive effective `k`),
`RAGChain.query` selects exactly the results with distance at or below
the 0.30 threshold, falls back to the first `k` raw results when none
passes, proceeds to generation, and returns `has_context = true` with the
selected documents as sources and the generation client's answer. -/
theorem query_filters_and_falls_back :
    ∀ (rk : Int) (sws : String → Int → Except PyErr (List (Document × ℚ)))
      (invoke : String → Except PyErr String) (q : String) (k : Option Int)
      (rws : List (Document × ℚ)) (ans : String),
      sws q (pyOrInt k rk) = Except.ok rws → rws ≠ [] → 0 < pyOrInt k rk →
      (∀ prompt, invoke prompt = Except.ok ans) →
      RAGChain.query rk sws invoke q k =
        Except.ok { answer := ans, sources := specSelected (pyOrInt k rk) rws,
                    has_context := true } := by
  intro rk sws invoke q k rws ans h hne hk hinv
  rw [query_eval_with_context rk sws invoke q k rws h hne hk, hinv]
  rfl

/-- C2 witness: Scenario D — a single indexed segment at distance 0.50
(above the 0.30 threshold); the fallback applies and the query still
answers with that one source and `has_context = true`. -/
theorem query_filters_and_falls_back_witness :
    RAGChain.query 4
        (fun _ _ => Except.ok
          [({ page_content := "Clause de résiliation du bail",
              metadata := { source_id := some ("bail.txt") } }, (1 : ℚ) / 2)])
        (fun _ => Except.ok ("Réponse fondée sur le bail")) ("Quelle clause ?") none =
      Except.ok { answer := "Réponse fondée sur le bail",
                  sources := specSelected (pyOrInt none 4)
                    [({ page_content := "Clause de résiliation du bail",
                        metadata := { source_id := some ("bail.txt") } }, (1 : ℚ) / 2)],
                  has_context := true } :=
  query_filters_and_falls_back 4
    (fun _ _ => Except.ok
      [({ page_content := "Clause de résiliation du bail",
          metadata := { source_id := some ("bail.txt") } }, (1 : ℚ) / 2)])
    (fun _ => Except.ok ("Réponse fondée sur le bail")) ("Quelle clause ?") none
    [({ page_content := "Clause de résiliation du bail",
        metadata := { source_id := some ("bail.txt") } }, (1 : ℚ) / 2)]
    ("Réponse fondée sur le bail") rfl (by simp) (by decide) (fun _ => rfl)

/-- C3 (amended): auth/backend errors propagate unchanged through the
query paths and the thin client wrappers — a retrieval error or a
generation error surfaces as the same error from `RAGChain.query` and
`RAGChain.query_stream`, `EmbeddingsManager.embed_text` re-raises its
backend's error, and `VectorStoreManager.search_with_scores` re-raises
Chroma's error — but `DocumentProcessor.process_file` (file ingestion)
catches every error and converts it into a failure `ProcessingResult`
instead of letting it reach the caller. -/
theorem error_propagation_amended :
    (∀ rk (sws : String → Int → Except PyErr (List (Document × ℚ))) invoke q k e,
      sws q (pyOrInt k rk) = Except.error e →
      RAGChain.query rk sws invoke q k = Except.error e) ∧
    (∀ rk (sws : String → Int → Except PyErr (List (Document × ℚ))) invoke q k rws e,
      sws q (pyOrInt k rk) = Except.ok rws → rws ≠ [] → 0 < pyOrInt k rk →
      (∀ prompt, invoke prompt = Except.error e) →
      RAGChain.query rk sws invoke q k = Except.error e) ∧
    (∀ rk (sws : String → Int → Except PyErr (List (Document × ℚ))) ls q k e,
      sws q (pyOrInt k rk) = Except.error e →
      RAGChain.query_stream rk sws ls q k = Except.error e) ∧
    (∀ rk (sws : String → Int → Except PyErr (List (Document × ℚ))) ls q k rws e,
      sws q (pyOrInt k rk) = Except.ok rws → rws ≠ [] → 0 < pyOrInt k rk →
      (∀ prompt, ls prompt = Except.error e) →
      RAGChain.query_stream rk sws ls q k = Except.error e) ∧
    (∀ (embed_query : String → Except PyErr (List ℚ)) text e,
      embed_query text = Except.error e →
      EmbeddingsManager.embed_text embed_query text = Except.error e) ∧
    (∀ rk (ssws : String → Int → Except PyErr (List (Document × ℚ))) q k e,
      ssws q (pyOrInt k rk) = Except.error e →
      VectorStoreManager.search_with_scores rk ssws q k = Except.error e) ∧
    (∀ (clean : String → String) (splitter : String → List String)
        (chroma_add : List Document → Except PyErr (List String))
        (name : String) (store : List Document) (e : PyErr),
      DocumentProcessor.process_file clean splitter (Except.error e) chroma_add name store =
        ({ success := false, source_id := name, chunks_count := 0,
           message := "Erreur lors du traitement: " ++ e.msg }, store)) := by
  refine ⟨?_, ?_, ?_, ?_, ?_, ?_, ?_⟩
  · intro rk sws invoke q k e h
    simp [RAGChain.query, h]
  · intro rk sws invoke q k rws e h hne hk hinv
    rw [query_eval_with_context rk sws invoke q k rws h hne hk, hinv]
    rfl
  · intro rk sws ls q k e h
    simp [RAGChain.query_stream, h]
  · intro rk sws ls q k rws e h hne hk hst
    rw [query_stream_eval_with_context rk sws ls q k rws h hne hk, hst]
    rfl
  · intro embed_query text e h
    exact h
  · intro rk ssws q k e h
    exact h
  · intro clean splitter chroma_add name store e
    rfl

/-- C3 witness: a provider outage surfaces unchanged from `query`, a
missing generation credential surfaces unchanged from `query` after a
successful retrieval, and an extraction-time error inside `process_file`
is converted into a failure outcome rather than propagated. -/
theorem error_propagation_amended_witness :
    RAGChain.query 4 (fun _ _ => Except.error (PyErr.backendError ("panne du fournisseur")))
        (fun _ => Except.ok ("x")) ("q") none =
      Except.error (PyErr.backendError ("panne du fournisseur")) ∧
    RAGChain.query 4
        (fun _ _ => Except.ok [({ page_content := "texte indexé" }, (1 : ℚ) / 10)])
        (fun _ => Except.error (PyErr.authError ("clé manquante"))) ("q") none =
      Except.error (PyErr.authError ("clé manquante")) ∧
    DocumentProcessor.process_file (fun s => s) (fun s => [s])
        (Except.error (PyErr.authError ("clé manquante"))) (fun _ => Except.ok [])
        ("doc.txt") [] =
      ({ success := false, source_id := "doc.txt", chunks_count := 0,
         message := "Erreur lors du traitement: clé manquante" }, []) :=
  ⟨error_propagation_amended.1 4
      (fun _ _ => Except.error (PyErr.backendError ("panne du fournisseur")))
      (fun _ => Except.ok ("x")) ("q") none
      (PyErr.backendError ("panne du fournisseur")) rfl,
   error_propagation_amended.2.1 4
      (fun _ _ => Except.ok [({ page_content := "texte indexé" }, (1 : ℚ) / 10)])
      (fun _ => Except.error (PyErr.authError ("clé manquante"))) ("q") none
      [({ page_content := "texte indexé" }, (1 : ℚ) / 10)]
      (PyErr.authError ("clé manquante")) rfl (by simp) (by decide) (fun _ => rfl),
   error_propagation_amended.2.2.2.2.2.2 (fun s => s) (fun s => [s])
      (fun _ => Except.ok []) ("doc.txt") [] (PyErr.authError ("clé manquante"))⟩

/-- C3 counterexample: an auth error raised by the vector store while
inserting the chunks of a perfectly processable file does NOT reach the
caller of `process_file`; it is caught and converted into a structured
failure result — refuting the claim that errors during file ingestion are
"not caught and converted into a structured failure result". -/
theorem process_file_converts_backend_error :
    DocumentProcessor.process_file
        (fun s => TextCleaner.clean DocumentProcessor.cleanerCfg (fun t => t) (some s))
        (fun t => [t])
        (Except.ok ("Le present contrat de prestation de services est conclu entre les parties signataires."))
        (fun _ => Except.error (PyErr.authError ("La clé API OpenAI n\x27est pas configurée")))
        ("contrat.txt") [] =
      ({ success := false, source_id := "contrat.txt", chunks_count := 0,
         message := "Erreur lors du traitement: La clé API OpenAI n\x27est pas configurée" },
       []) := by
  decide

/-- C4: the failing input for the whitespace-normalization claim.  The
`\s+ → " "` substitution runs first and `\s` matches newlines, so every
newline — including the run of four — is collapsed into a plain space;
the `\n{3,} → "\n\n"` rule never fires and no newline survives
`TextCleaner.clean`, where the claim requires the run to become exactly
two newlines. -/
theorem clean_drops_newlines_instead_of_capping :
    TextCleaner.clean TextCleaner.defaultCfg (fun s => s)
        (some ("Premier paragraphe.\n\n\n\nSecond paragraphe.")) =
      "Premier paragraphe. Second paragraphe." ∧
    strContains
        (TextCleaner.clean TextCleaner.defaultCfg (fun s => s)
          (some ("Premier paragraphe.\n\n\n\nSecond paragraphe.")))
        ("\n") = false := by
  decide

/-- C6 (amended): a 40-character extracted text that remains under the
50-character minimum after cleaning yields a failure result whose message
is the fixed French "trop court" message, and the vector store receives
nothing. -/
theorem process_file_rejects_short_text :
    ∀ (clean : String → String) (splitter : String → List String)
      (chroma_add : List Document → Except PyErr (List String))
      (name : String) (store : List Document) (raw_text : String),
      raw_text.length = 40 → (pyStrip raw_text).isEmpty = false →
      (clean raw_text).length < 50 →
      DocumentProcessor.process_file clean splitter (Except.ok raw_text) chroma_add
          name store =
        ({ success := false, source_id := name, chunks_count := 0,
           message := "Le contenu nettoyé est trop court pour être exploitable" }, store) := by
  intro clean splitter chroma_add name store raw_text hlen hstrip hclean
  have hne : raw_text.isEmpty = false := by
    cases hb : raw_text.isEmpty
    · rfl
    · exfalso
      rw [String.isEmpty_iff] at hb
      rw [hb] at hlen
      simp at hlen
  simp [DocumentProcessor.process_file, hne, hstrip, hclean]

/-- C6 witness: the concrete 40-character text of Scenario A, processed
with the processor's own cleaner configuration. -/
theorem process_file_rejects_short_text_witness :
    DocumentProcessor.process_file
        (fun s => TextCleaner.clean DocumentProcessor.cleanerCfg (fun t => t) (some s))
        (fun t => [t])
        (Except.ok ("Clause de non concurrence entre parties."))
        (fun _ => Except.ok []) ("note.txt") [] =
      ({ success := false, source_id := "note.txt", chunks_count := 0,
         message := "Le contenu nettoyé est trop court pour être exploitable" }, []) :=
  process_file_rejects_short_text
    (fun s => TextCleaner.clean DocumentProcessor.cleanerCfg (fun t => t) (some s)) (fun t => [t])
    (fun _ => Except.ok []) ("note.txt") [] ("Clause de non concurrence entre parties.")
    (by decide) (by decide) (by decide)

/-- C6 counterexample: at that same 40-character input the failure message
does not contain the substring "short" — it is the French message
containing "court" — so the claim's "message mentions \"short\"" is false
on the code. -/
theorem process_file_short_message_lacks_short :
    (DocumentProcessor.process_file
        (fun s => TextCleaner.clean DocumentProcessor.cleanerCfg (fun t => t) (some s))
        (fun t => [t])
        (Except.ok ("Clause de non concurrence entre parties."))
        (fun _ => Except.ok []) ("note.txt") []).1.success = false ∧
    ("Clause de non concurrence entre parties.").length = 40 ∧
    strContains
        ((DocumentProcessor.process_file
          (fun s => TextCleaner.clean DocumentProcessor.cleanerCfg (fun t => t) (some s))
          (fun t => [t])
          (Except.ok ("Clause de non concurrence entre parties."))
          (fun _ => Except.ok []) ("note.txt") []).1.message) ("short") = false ∧
    strContains
        ((DocumentProcessor.process_file
          (fun s => TextCleaner.clean DocumentProcessor.cleanerCfg (fun t => t) (some s))
          (fun t => [t])
          (Except.ok ("Clause de non concurrence entre parties."))
          (fun _ => Except.ok []) ("note.txt") []).1.message) ("court") = true := by
  decide

end RAGSpec
